import Mathlib

/-!
Verification of the ATLAS framework core: the label / relationship-type /
validation-status enumerations with their derived rule tables, the node
entity with its cached derived properties, the atlas_operation envelope
(validation gate, bounded retry, result cache), and the taxonomy graph
analysis algorithms (distributions, connectivity, hierarchical depth).
Each definition is a shallow embedding of the corresponding Python
definition in src/atlas.
-/

/-- Property values stored in a node's or relationship's property map
(`Dict[str, Any]` in the source); only the shapes the analysed code
actually stores are represented. -/
inductive PropValue where
  | str : String → PropValue
  | num : Nat → PropValue
deriving DecidableEq, Repr

/-- `NodeLabelType` enum, src/atlas/enums/node_label.py lines 12-31. -/
inductive NodeLabelType where
  | ENERGY_TERM
  | RENEWABLE_SOURCE
  | FOSSIL_FUEL
  | TECHNICAL_CONCEPT
  | REGULATORY_FRAMEWORK
  | TAXONOMY_NODE
  | CONCEPT
  | CATEGORY
  | RELATIONSHIP_NODE
deriving DecidableEq, Repr

/-- The `.value` string of each `NodeLabelType` member. -/
def NodeLabelType.value : NodeLabelType → String
  | .ENERGY_TERM => "EnergyTerm"
  | .RENEWABLE_SOURCE => "RenewableSource"
  | .FOSSIL_FUEL => "FossilFuel"
  | .TECHNICAL_CONCEPT => "TechnicalConcept"
  | .REGULATORY_FRAMEWORK => "RegulatoryFramework"
  | .TAXONOMY_NODE => "TaxonomyNode"
  | .CONCEPT => "Concept"
  | .CATEGORY => "Category"
  | .RELATIONSHIP_NODE => "RelationshipNode"

/-- Insert into a Python-set model (list without duplicate membership). -/
def listInsert (a : List String) (x : String) : List String :=
  if x ∈ a then a else a ++ [x]

/-- Python `set.union` / `set.update` on the list model of a set. -/
def listUnion (a b : List String) : List String :=
  b.foldl listInsert a

/-- Python set difference `a - b` on the list model of a set. -/
def listDiff (a b : List String) : List String :=
  a.filter (fun y => y ∉ b)

/-- `NodeLabelType.required_properties`, node_label.py lines 77-99:
base set `{name, created_at, updated_at}` unioned with a per-label
extension table. -/
def NodeLabelType.required_properties (l : NodeLabelType) : List String :=
  listUnion ["name", "created_at", "updated_at"]
    (match l with
     | .ENERGY_TERM => ["definition", "fuel_group"]
     | .RENEWABLE_SOURCE => ["capacity", "technology_type"]
     | .FOSSIL_FUEL => ["carbon_intensity", "extraction_method"]
     | .TECHNICAL_CONCEPT => ["description", "maturity_level"]
     | .REGULATORY_FRAMEWORK => ["jurisdiction", "effective_date", "regulatory_body"]
     | .TAXONOMY_NODE => ["definition"]
     | .CONCEPT => ["definition"]
     | .CATEGORY => ["description"]
     | .RELATIONSHIP_NODE => ["relationship_type"])

/-- `RelationshipType` enum, src/atlas/core/relationship.py lines 12-48:
exactly the 22 declared members. -/
inductive RelationshipType where
  | IS_A
  | PART_OF
  | CONTAINS
  | SUBCLASS_OF
  | RELATED_TO
  | SIMILAR_TO
  | OPPOSITE_OF
  | PRODUCES
  | CONSUMES
  | USES
  | REGULATES
  | REGULATED_BY
  | EXTRACTED_FROM
  | LOCATED_IN
  | DEPENDS_ON
  | IMPROVES
  | REPLACES
  | CONNECTS
  | DEFINED_BY
  | REFERENCES
  | SUPERSEDES
  | ENFORCED_BY
deriving DecidableEq, Repr

/-- The `.value` string of each `RelationshipType` member. -/
def RelationshipType.value : RelationshipType → String
  | .IS_A => "IS_A"
  | .PART_OF => "PART_OF"
  | .CONTAINS => "CONTAINS"
  | .SUBCLASS_OF => "SUBCLASS_OF"
  | .RELATED_TO => "RELATED_TO"
  | .SIMILAR_TO => "SIMILAR_TO"
  | .OPPOSITE_OF => "OPPOSITE_OF"
  | .PRODUCES => "PRODUCES"
  | .CONSUMES => "CONSUMES"
  | .USES => "USES"
  | .REGULATES => "REGULATES"
  | .REGULATED_BY => "REGULATED_BY"
  | .EXTRACTED_FROM => "EXTRACTED_FROM"
  | .LOCATED_IN => "LOCATED_IN"
  | .DEPENDS_ON => "DEPENDS_ON"
  | .IMPROVES => "IMPROVES"
  | .REPLACES => "REPLACES"
  | .CONNECTS => "CONNECTS"
  | .DEFINED_BY => "DEFINED_BY"
  | .REFERENCES => "REFERENCES"
  | .SUPERSEDES => "SUPERSEDES"
  | .ENFORCED_BY => "ENFORCED_BY"

/-- `RelationshipType.is_hierarchical`, relationship.py lines 50-65. -/
def RelationshipType.is_hierarchical (t : RelationshipType) : Bool :=
  match t with
  | .IS_A | .PART_OF | .CONTAINS | .SUBCLASS_OF => true
  | _ => false

/-- Attribute lookup of a member name on the `RelationshipType` class:
resolves exactly the 22 names declared at relationship.py lines 21-48;
any other name raises `AttributeError` (Python 3.11 attribute semantics
for enum members referenced through `self`). -/
def RelationshipType.memberNamed : String → Option RelationshipType
  | "IS_A" => some .IS_A
  | "PART_OF" => some .PART_OF
  | "CONTAINS" => some .CONTAINS
  | "SUBCLASS_OF" => some .SUBCLASS_OF
  | "RELATED_TO" => some .RELATED_TO
  | "SIMILAR_TO" => some .SIMILAR_TO
  | "OPPOSITE_OF" => some .OPPOSITE_OF
  | "PRODUCES" => some .PRODUCES
  | "CONSUMES" => some .CONSUMES
  | "USES" => some .USES
  | "REGULATES" => some .REGULATES
  | "REGULATED_BY" => some .REGULATED_BY
  | "EXTRACTED_FROM" => some .EXTRACTED_FROM
  | "LOCATED_IN" => some .LOCATED_IN
  | "DEPENDS_ON" => some .DEPENDS_ON
  | "IMPROVES" => some .IMPROVES
  | "REPLACES" => some .REPLACES
  | "CONNECTS" => some .CONNECTS
  | "DEFINED_BY" => some .DEFINED_BY
  | "REFERENCES" => some .REFERENCES
  | "SUPERSEDES" => some .SUPERSEDES
  | "ENFORCED_BY" => some .ENFORCED_BY
  | _ => none

/-- Evaluation of an attribute reference `self.NAME` inside
`inverse_relationship`: the member if declared, otherwise the
`AttributeError` the Python runtime raises. -/
def RelationshipType.attrLookup (name : String) : Except String RelationshipType :=
  match RelationshipType.memberNamed name with
  | some m => .ok m
  | none => .error ("AttributeError: " ++ name)

/-- `RelationshipType.inverse_relationship`, relationship.py lines 102-142.
The Python property eagerly builds the `inverse_map` dict literal, which
evaluates every value expression in source order; values that are
attribute references on `self` are resolved through `attrLookup`, so a
reference to an undeclared member name raises before any lookup happens.
The final match mirrors `inverse_map.get(self.value)` followed by the
`RelationshipType(inverse)` round-trip (the identity on members). -/
def RelationshipType.inverse_relationship (t : RelationshipType) :
    Except String (Option RelationshipType) := do
  let invOfPartOf ← RelationshipType.attrLookup "CONTAINS"
  let invOfContains ← RelationshipType.attrLookup "PART_OF"
  let invOfRelatedTo ← RelationshipType.attrLookup "RELATED_TO"
  let invOfSimilarTo ← RelationshipType.attrLookup "SIMILAR_TO"
  let invOfOppositeOf ← RelationshipType.attrLookup "OPPOSITE_OF"
  let invOfProduces ← RelationshipType.attrLookup "PRODUCED_BY"
  let invOfConsumes ← RelationshipType.attrLookup "CONSUMED_BY"
  let invOfUses ← RelationshipType.attrLookup "USED_BY"
  let invOfRegulates ← RelationshipType.attrLookup "REGULATED_BY"
  let invOfRegulatedBy ← RelationshipType.attrLookup "REGULATES"
  let invOfExtractedFrom ← RelationshipType.attrLookup "EXTRACTION_SOURCE_FOR"
  let invOfLocatedIn ← RelationshipType.attrLookup "LOCATION_OF"
  let invOfDependsOn ← RelationshipType.attrLookup "DEPENDENCY_FOR"
  let invOfImproves ← RelationshipType.attrLookup "IMPROVED_BY"
  let invOfReplaces ← RelationshipType.attrLookup "REPLACED_BY"
  let invOfConnects ← RelationshipType.attrLookup "CONNECTS"
  let invOfDefinedBy ← RelationshipType.attrLookup "DEFINES"
  let invOfReferences ← RelationshipType.attrLookup "REFERENCED_BY"
  let invOfSupersedes ← RelationshipType.attrLookup "SUPERSEDED_BY"
  let invOfEnforcedBy ← RelationshipType.attrLookup "ENFORCES"
  .ok (match t with
    | .IS_A => none
    | .PART_OF => some invOfPartOf
    | .CONTAINS => some invOfContains
    | .SUBCLASS_OF => none
    | .RELATED_TO => some invOfRelatedTo
    | .SIMILAR_TO => some invOfSimilarTo
    | .OPPOSITE_OF => some invOfOppositeOf
    | .PRODUCES => some invOfProduces
    | .CONSUMES => some invOfConsumes
    | .USES => some invOfUses
    | .REGULATES => some invOfRegulates
    | .REGULATED_BY => some invOfRegulatedBy
    | .EXTRACTED_FROM => some invOfExtractedFrom
    | .LOCATED_IN => some invOfLocatedIn
    | .DEPENDS_ON => some invOfDependsOn
    | .IMPROVES => some invOfImproves
    | .REPLACES => some invOfReplaces
    | .CONNECTS => some invOfConnects
    | .DEFINED_BY => some invOfDefinedBy
    | .REFERENCES => some invOfReferences
    | .SUPERSEDES => some invOfSupersedes
    | .ENFORCED_BY => some invOfEnforcedBy)

/-- `ValidationStatusType` enum, src/atlas/enums/validation.py lines 12-27. -/
inductive ValidationStatusType where
  | UNVALIDATED
  | VALIDATED
  | NEEDS_REVIEW
  | REJECTED
  | PENDING
  | AUTOMATED_VALIDATED
  | EXPERT_VALIDATED
  | COMMUNITY_VALIDATED
deriving DecidableEq, Repr

/-- The `.value` string of each `ValidationStatusType` member. -/
def ValidationStatusType.value : ValidationStatusType → String
  | .UNVALIDATED => "unvalidated"
  | .VALIDATED => "validated"
  | .NEEDS_REVIEW => "needs_review"
  | .REJECTED => "rejected"
  | .PENDING => "pending"
  | .AUTOMATED_VALIDATED => "automated_validated"
  | .EXPERT_VALIDATED => "expert_validated"
  | .COMMUNITY_VALIDATED => "community_validated"

/-- `ValidationStatusType.is_valid`, validation.py lines 29-42. -/
def ValidationStatusType.is_valid (s : ValidationStatusType) : Bool :=
  match s with
  | .VALIDATED | .AUTOMATED_VALIDATED | .EXPERT_VALIDATED | .COMMUNITY_VALIDATED => true
  | _ => false

/-- `ValidationStatusType.allowed_transitions`, validation.py lines 100-152. -/
def ValidationStatusType.allowed_transitions (s : ValidationStatusType) :
    List ValidationStatusType :=
  match s with
  | .UNVALIDATED => [.PENDING, .AUTOMATED_VALIDATED, .NEEDS_REVIEW, .REJECTED]
  | .VALIDATED => [.NEEDS_REVIEW, .REJECTED]
  | .NEEDS_REVIEW => [.VALIDATED, .EXPERT_VALIDATED, .COMMUNITY_VALIDATED, .REJECTED]
  | .REJECTED => [.NEEDS_REVIEW, .PENDING]
  | .PENDING => [.VALIDATED, .NEEDS_REVIEW, .REJECTED, .AUTOMATED_VALIDATED]
  | .AUTOMATED_VALIDATED => [.EXPERT_VALIDATED, .COMMUNITY_VALIDATED, .NEEDS_REVIEW, .REJECTED]
  | .EXPERT_VALIDATED => [.NEEDS_REVIEW, .REJECTED]
  | .COMMUNITY_VALIDATED => [.EXPERT_VALIDATED, .NEEDS_REVIEW, .REJECTED]

/-- `ValidationStatusType.required_validation_fields`, validation.py
lines 154-175: base `{validated_at, validation_source}` unioned with a
per-status extension table. -/
def ValidationStatusType.required_validation_fields (s : ValidationStatusType) :
    List String :=
  listUnion ["validated_at", "validation_source"]
    (match s with
     | .UNVALIDATED => []
     | .VALIDATED => ["validator_id"]
     | .NEEDS_REVIEW => ["review_reason"]
     | .REJECTED => ["rejection_reason", "rejected_by"]
     | .PENDING => ["pending_reason"]
     | .AUTOMATED_VALIDATED => ["validation_method", "confidence_score"]
     | .EXPERT_VALIDATED => ["expert_id", "expert_credentials"]
     | .COMMUNITY_VALIDATED => ["community_votes", "validation_threshold"])

/-- Lookup in a Python-dict model (association list, first match). -/
def dictGet {K V : Type} [DecidableEq K] : List (K × V) → K → Option V
  | [], _ => none
  | (k, v) :: rest, key => if k = key then some v else dictGet rest key

/-- Python `d[k] = v`: replace in place when the key exists (keeping its
insertion position), otherwise append at the end. -/
def dictSet {K V : Type} [DecidableEq K] : List (K × V) → K → V → List (K × V)
  | [], key, v => [(key, v)]
  | (k, w) :: rest, key, v =>
    if k = key then (key, v) :: rest else (k, w) :: dictSet rest key v

/-- Python `d.update(other)`: set every key of `other` in order. -/
def dictMerge {K V : Type} [DecidableEq K]
    (m updates : List (K × V)) : List (K × V) :=
  updates.foldl (fun acc kv => dictSet acc kv.1 kv.2) m

/-- Python `d.keys()` of the dict model. -/
def keysOf {K V : Type} (m : List (K × V)) : List K :=
  m.map Prod.fst

/-- `ATLASNode`, src/atlas/core/node.py lines 22-48: id, labels, property
map, timestamps (modelled as abstract ticks) and validation status,
together with the `_cached_properties` slots that the `cached_property`
descriptor (src/atlas/descriptors/cached_property.py, used with its
default `ttl=None`, i.e. no expiration) maintains for the two cached
derived properties `required_properties` and `missing_properties`. -/
structure ATLASNode where
  id : String
  labels : List NodeLabelType
  properties : List (String × PropValue)
  created_at : Nat
  updated_at : Nat
  validation_status : ValidationStatusType
  cached_required : Option (List String)
  cached_missing : Option (List String)
deriving DecidableEq, Repr

/-- Body of `ATLASNode.required_properties`, node.py lines 96-107:
`required = set(); for label in self.labels: required.update(...)`. -/
def computeRequired (labels : List NodeLabelType) : List String :=
  labels.foldl (fun acc l => listUnion acc l.required_properties) []

/-- Body of `ATLASNode.missing_properties`, node.py lines 109-117:
`self.required_properties - set(self.properties.keys())`. -/
def computeMissing (n : ATLASNode) : List String :=
  listDiff (computeRequired n.labels) (keysOf n.properties)

/-- Access of the cached property `required_properties` on a node:
return the cached value when present, else compute and cache it
(CachedProperty.__get__, cached_property.py lines 52-88, `ttl=None`). -/
def getRequired (n : ATLASNode) : List String × ATLASNode :=
  match n.cached_required with
  | some v => (v, n)
  | none =>
    let v := computeRequired n.labels
    (v, { n with cached_required := some v })

/-- Access of the cached property `missing_properties` on a node; its
body first accesses `required_properties` (itself cached). -/
def getMissing (n : ATLASNode) : List String × ATLASNode :=
  match n.cached_missing with
  | some v => (v, n)
  | none =>
    let r := getRequired n
    let v := listDiff r.1 (keysOf r.2.properties)
    (v, { r.2 with cached_missing := some v })

/-- `ATLASNode.validate`, node.py lines 162-180 (the `atlas_operation
"validation"` wrapper uses only default settings, so the wrapped call
returns the body's result): False iff `missing_properties` is
non-empty; the property-type loop only `pass`es. Returns the node with
the cache slots the access populated. -/
def ATLASNode.validate (n : ATLASNode) : Bool × ATLASNode :=
  let r := getMissing n
  (r.1.isEmpty, r.2)

/-- `ATLASNode.update`, node.py lines 147-160, wrapped by
`atlas_operation "update" requires_validation=True`
(atlas_operation.py lines 63-69): the wrapper first calls
`instance.validate()` and raises a ValueError when it is falsy; only
then does the body merge the new properties and set `updated_at` to the
current time (`now`). -/
def ATLASNode.update (n : ATLASNode) (props : List (String × PropValue))
    (now : Nat) : Except String ATLASNode :=
  let r := n.validate
  if r.1 then
    .ok { r.2 with properties := dictMerge r.2.properties props, updated_at := now }
  else
    .error "Validation failed for update operation"

/-- `ATLASClient.validate_node`, src/atlas/core/client.py lines 291-319,
modelled on the node the graph adapter returned (the adapter itself is
an external collaborator): runs `node.validate()`, then unconditionally
commits VALIDATED on success and NEEDS_REVIEW on failure. -/
def validate_node (n : ATLASNode) : Bool × ATLASNode :=
  let r := n.validate
  (r.1, { r.2 with validation_status := if r.1 then .VALIDATED else .NEEDS_REVIEW })

/-- Modelled from the spec: the transition operation of spec section 4.3
(`transition(entity, target)`) is absent from src (only the
`allowed_transitions` table and `validate_node` exist there). It fails
when `target` is not in `allowed_transitions(entity.status)` or when a
required field for `target` is not supplied, leaving the status
unchanged; otherwise it commits the target status. -/
def transition (n : ATLASNode) (target : ValidationStatusType)
    (supplied : List String) : Bool × ATLASNode :=
  if target ∈ n.validation_status.allowed_transitions then
    if target.required_validation_fields.all (fun f => f ∈ supplied) then
      (true, { n with validation_status := target })
    else (false, n)
  else (false, n)

/-- Failure of a wrapped operation: either the pre-validation gate
rejected it (the ValueError of atlas_operation.py line 69) or the body
raised on every attempt. -/
inductive OpError (E : Type) where
  | validationFailed
  | opError : E → OpError E
deriving DecidableEq, Repr

/-- The retry loop of `atlas_operation`, atlas_operation.py lines 71-109:
`body k` is the outcome of the k-th invocation of the wrapped function
(0-based). `remaining` counts the retries still allowed; on an
exception with no retries left the last exception is re-raised. The
pair's second component is the number of invocations performed. -/
def retryFrom {E V : Type} (body : Nat → Except E V) :
    Nat → Nat → Except E V × Nat
  | 0, k =>
    match body k with
    | .ok v => (.ok v, k + 1)
    | .error e => (.error e, k + 1)
  | r + 1, k =>
    match body k with
    | .ok v => (.ok v, k + 1)
    | .error _ => retryFrom body r (k + 1)

/-- The `atlas_operation` decorator's wrapper, atlas_operation.py lines
44-111, for one call on an instance: in order, the cache lookup (only
when caching is on and the `_operation_cache` attribute already
exists), the pre-validation gate (`instance.validate()` result passed
in as `validate`), then the retry loop; a successful result is stored
in the cache (creating the attribute) when caching is on. Returns the
outcome, the new cache state (`none` models the attribute not existing
yet) and the number of invocations of the wrapped function. -/
def atlasOperation {E V A : Type} [DecidableEq A]
    (requiresValidation : Bool) (retryAttempts : Nat) (cacheResult : Bool)
    (validate : Bool) (body : Nat → Except E V) (args : A)
    (cache : Option (List (A × V))) :
    Except (OpError E) V × Option (List (A × V)) × Nat :=
  let hit : Option V :=
    match cacheResult, cache with
    | true, some c => dictGet c args
    | _, _ => none
  match hit with
  | some v => (.ok v, cache, 0)
  | none =>
    if requiresValidation && !validate then
      (.error .validationFailed, cache, 0)
    else
      match retryFrom body retryAttempts 0 with
      | (.ok v, cnt) =>
        (.ok v,
         if cacheResult then some (dictSet (cache.getD []) args v) else cache,
         cnt)
      | (.error e, cnt) => (.error (.opError e), cache, cnt)

/-- Modelled from the spec: the `ATLASRelationship` record is imported by
src/atlas/core/taxonomy.py but its defining module is absent from src;
spec section 3 gives it an identifier, a type variant, source and
target node ids, a property map and a validation status.
`is_hierarchical` on a relationship delegates to its type (taxonomy.py
line 371 with relationship.py lines 50-65). -/
structure ATLASRelationship where
  id : String
  type : RelationshipType
  start_node_id : String
  end_node_id : String
  properties : List (String × PropValue)
  validation_status : ValidationStatusType
deriving DecidableEq, Repr

/-- `TaxonomyExtractor._count_node_labels`, taxonomy.py lines 293-308:
each of a node's labels bumps that label value's counter. -/
def countNodeLabels (nodes : List ATLASNode) : List (String × Nat) :=
  nodes.foldl
    (fun m nd =>
      nd.labels.foldl
        (fun m l => dictSet m l.value ((dictGet m l.value).getD 0 + 1)) m)
    []

/-- `TaxonomyExtractor._count_relationship_types`, taxonomy.py lines
310-324. -/
def countRelTypes (rels : List ATLASRelationship) : List (String × Nat) :=
  rels.foldl
    (fun m r => dictSet m r.type.value ((dictGet m r.type.value).getD 0 + 1))
    []

/-- `TaxonomyExtractor._calculate_connectivity`, taxonomy.py lines
326-350: 0 when there is at most one node, else
`len(relationships) / (len(nodes) * (len(nodes) - 1))` (the float
division idealized over the rationals). -/
def calcConnectivity (nodes : List ATLASNode)
    (rels : List ATLASRelationship) : Rat :=
  if nodes.length ≤ 1 then 0
  else
    let maxRel := nodes.length * (nodes.length - 1)
    if maxRel = 0 then 0
    else (rels.length : Rat) / (maxRel : Rat)

/-- The adjacency-building loop of
`TaxonomyExtractor._calculate_hierarchical_depth`, taxonomy.py lines
365-372: the adjacency dict is keyed by the analysed node ids (all
initialized to `[]`, here the function `f` with domain `keys`);
`adjacency[rel.start_node_id].append(rel.end_node_id)` raises KeyError
when a hierarchical relationship's start node id is not a key. -/
def addHierEdges (keys : List String) :
    (String → List String) → List ATLASRelationship →
    Except Unit (String → List String)
  | f, [] => .ok f
  | f, r :: rs =>
    if r.type.is_hierarchical then
      if r.start_node_id ∈ keys then
        addHierEdges keys
          (fun x => if x = r.start_node_id then f x ++ [r.end_node_id] else f x)
          rs
      else .error ()
    else addHierEdges keys f rs

/-- The mutable state of the depth-first traversal of taxonomy.py lines
374-391: the global visited set and the running maximum depth. -/
structure DfsState where
  visited : List String
  maxDepth : Nat
deriving DecidableEq, Repr

/-- The recursive `dfs` of taxonomy.py lines 378-386: record the depth,
mark the node visited, then recurse into each unvisited child
(`adjacency.get(node_id, [])` yields `[]` for ids outside the
adjacency). The fuel argument only bounds the recursion depth; since
every call is on a node not yet visited and immediately marks it, the
recursion depth never exceeds the number of distinct ids, so the fuel
chosen by `calcHierarchicalDepth` is never exhausted. -/
def dfsVisit (adj : String → List String) :
    Nat → String → Nat → DfsState → DfsState
  | 0, _, _, s => s
  | fuel + 1, nodeId, depth, s =>
    let s1 : DfsState :=
      ⟨if nodeId ∈ s.visited then s.visited else nodeId :: s.visited,
       max s.maxDepth depth⟩
    (adj nodeId).foldl
      (fun st child =>
        if child ∈ st.visited then st else dfsVisit adj fuel child (depth + 1) st)
      s1

/-- `TaxonomyExtractor._calculate_hierarchical_depth`, taxonomy.py lines
352-393: build the hierarchical adjacency (KeyError modelled as
`Except.error`), then run the DFS from every node not yet visited with
one global visited set, returning the maximum depth reached. -/
def calcHierarchicalDepth (nodes : List ATLASNode)
    (rels : List ATLASRelationship) : Except Unit Nat :=
  match addHierEdges (nodes.map (fun nd => nd.id)) (fun _ => []) rels with
  | .error e => .error e
  | .ok adj =>
    let fuel := nodes.length + rels.length + 1
    let final := nodes.foldl
      (fun st nd =>
        if nd.id ∈ st.visited then st else dfsVisit adj fuel nd.id 0 st)
      ⟨[], 0⟩
    .ok final.maxDepth

/-- The relationship-gathering loop of `analyze_taxonomy`, taxonomy.py
lines 262-275: for each node, the relationships starting at it followed
by the relationships ending at it (`find_relationships` of the external
graph adapter modelled as filtering the materialized store). -/
def gatherRelationships (nodes : List ATLASNode)
    (store : List ATLASRelationship) : List ATLASRelationship :=
  nodes.foldl
    (fun acc nd =>
      acc ++ store.filter (fun r => r.start_node_id = nd.id)
          ++ store.filter (fun r => r.end_node_id = nd.id))
    []

/-- The deduplication `{rel.id: rel for rel in relationships}.values()`,
taxonomy.py line 278: keys keep first-insertion order, values are the
last relationship seen with that id. -/
def dedupeById (rels : List ATLASRelationship) : List ATLASRelationship :=
  (rels.foldl (fun m r => dictSet m r.id r) []).map Prod.snd

/-- Values of the analysis dict returned by `analyze_taxonomy`. -/
inductive AnalysisValue where
  | str : String → AnalysisValue
  | num : Nat → AnalysisValue
  | dist : List (String × Nat) → AnalysisValue
  | rat : Rat → AnalysisValue
deriving DecidableEq, Repr

/-- `TaxonomyExtractor.analyze_taxonomy`, taxonomy.py lines 241-291, on
the path where a graph adapter is present (without one the code returns
`{}`): gather the domain's relationships, deduplicate them by id, and
build the analysis dict in source order; a KeyError from the depth
computation propagates. -/
def analyze_taxonomy (domain : String) (nodes : List ATLASNode)
    (store : List ATLASRelationship) :
    Except Unit (List (String × AnalysisValue)) :=
  let uniq := dedupeById (gatherRelationships nodes store)
  match calcHierarchicalDepth nodes uniq with
  | .error e => .error e
  | .ok depth =>
    .ok [("domain", .str domain),
         ("node_count", .num nodes.length),
         ("relationship_count", .num uniq.length),
         ("node_label_distribution", .dist (countNodeLabels nodes)),
         ("relationship_type_distribution", .dist (countRelTypes uniq)),
         ("connectivity", .rat (calcConnectivity nodes uniq)),
         ("hierarchical_depth", .num depth)]

/-- A taxonomy node carrying only an id, as used by the depth analysis. -/
def mkChainNode (i : String) : ATLASNode :=
  { id := i, labels := [.TAXONOMY_NODE], properties := [],
    created_at := 0, updated_at := 0, validation_status := .UNVALIDATED,
    cached_required := none, cached_missing := none }

/-- The node list of a linear chain on the given ids. -/
def chainNodes (ids : List String) : List ATLASNode :=
  ids.map mkChainNode

/-- The hierarchical edges of a linear chain on the given ids: one
PART_OF relationship from each id to its successor. -/
def chainRels : List String → List ATLASRelationship
  | a :: b :: rest =>
    { id := a ++ "->" ++ b, type := .PART_OF,
      start_node_id := a, end_node_id := b,
      properties := [], validation_status := .UNVALIDATED }
      :: chainRels (b :: rest)
  | _ => []

/-- An adjacency function realizes a linear chain on `ids`: each id maps
to exactly its successor, the last to nothing. -/
def adjIsChain (adj : String → List String) : List String → Prop
  | [] => True
  | [a] => adj a = []
  | a :: b :: rest => adj a = [b] ∧ adjIsChain adj (b :: rest)

/-- The section-8 scenario node: label ENERGY_TERM with only the base
properties name / created_at / updated_at present. -/
def scenarioNode : ATLASNode :=
  { id := "n1", labels := [.ENERGY_TERM],
    properties := [("name", .str "Solar"), ("created_at", .str "t0"),
                   ("updated_at", .str "t0")],
    created_at := 0, updated_at := 0, validation_status := .UNVALIDATED,
    cached_required := none, cached_missing := none }

/-- The properties the section-8 scenario adds to repair the node. -/
def fixProps : List (String × PropValue) :=
  [("definition", .str "Energy from the sun"), ("fuel_group", .str "renewable")]

/-- The scenario node after `validate()` cached its (non-empty) missing
set and the missing properties were then written directly into its
property map (as the repository's tests do via `node.properties.update`),
bypassing the gated `update` operation. -/
def staleNode : ATLASNode :=
  let n1 := (scenarioNode.validate).2
  { n1 with properties := dictMerge n1.properties fixProps }

/-- The scenario node repaired up front: all required ENERGY_TERM
properties present. -/
def validNode : ATLASNode :=
  { scenarioNode with properties := dictMerge scenarioNode.properties fixProps }

/-- Additional (non-required) properties used to exercise `update` on a
valid node. -/
def extraProps : List (String × PropValue) :=
  [("note", .str "checked")]

/-- A property-complete node whose status is REJECTED. -/
def rejNode : ATLASNode :=
  { validNode with validation_status := .REJECTED }

/-- All fields PENDING requires. -/
def pendingFields : List String :=
  ["validated_at", "validation_source", "pending_reason"]

/-- All fields EXPERT_VALIDATED requires. -/
def expertFields : List String :=
  ["validated_at", "validation_source", "expert_id", "expert_credentials"]

/-- A hierarchical relationship whose start node is outside the analysed
node set (an incoming edge from elsewhere). -/
def outsideEdgeRel : ATLASRelationship :=
  { id := "x1", type := .PART_OF, start_node_id := "outside",
    end_node_id := "a", properties := [], validation_status := .UNVALIDATED }

/-- `Except` success test. -/
def exceptOk {ε α : Type} : Except ε α → Bool
  | .ok _ => true
  | .error _ => false

/-- An operation body that raises on its first two invocations and then
returns "ok". -/
def bodyTwiceFail : Nat → Except String String :=
  fun i => if i < 2 then .error "boom" else .ok "ok"

/-- The exceptions `bodyTwiceFail` raises, per attempt. -/
def esBoom : Nat → String :=
  fun _ => "boom"

/-- A constantly succeeding operation body returning "v1". -/
def bodyOkV1 : Nat → Except String String := fun _ => .ok "v1"

/-- A constantly raising operation body (never reached in the cache
witness's second call). -/
def bodyErrU : Nat → Except String String := fun _ => .error "unused"

/-- A constantly succeeding operation body returning "v2". -/
def bodyOkV2 : Nat → Except String String := fun _ => .ok "v2"

/-- The analysis result of the one-node, no-relationship demo input. -/
def demoRes : List (String × AnalysisValue) :=
  [("domain", .str "energy"),
   ("node_count", .num 1),
   ("relationship_count", .num 0),
   ("node_label_distribution", .dist [("TaxonomyNode", 1)]),
   ("relationship_type_distribution", .dist []),
   ("connectivity", .rat 0),
   ("hierarchical_depth", .num 0)]

/-! ## Theorems -/

/-- Membership in the Python-set insert. -/
theorem mem_listInsert (a : List String) (x y : String) :
    y ∈ listInsert a x ↔ y ∈ a ∨ y = x := by
  unfold listInsert
  split
  · rename_i hx
    constructor
    · exact Or.inl
    · rintro (h | rfl)
      · exact h
      · exact hx
  · simp

/-- Membership in the Python-set union. -/
theorem mem_listUnion (a b : List String) (y : String) :
    y ∈ listUnion a b ↔ y ∈ a ∨ y ∈ b := by
  induction b generalizing a with
  | nil => simp [listUnion]
  | cons x xs ih =>
    show y ∈ xs.foldl listInsert (listInsert a x) ↔ _
    rw [show xs.foldl listInsert (listInsert a x) = listUnion (listInsert a x) xs from rfl,
        ih, mem_listInsert]
    simp [or_assoc]

/-- Membership in the Python-set difference. -/
theorem mem_listDiff (a b : List String) (y : String) :
    y ∈ listDiff a b ↔ y ∈ a ∧ y ∉ b := by
  simp [listDiff, List.mem_filter]

/-- Membership in the fold computing a node's required properties. -/
theorem mem_computeRequired_fold (ls : List NodeLabelType) (init : List String)
    (x : String) :
    x ∈ ls.foldl (fun acc l => listUnion acc l.required_properties) init ↔
      x ∈ init ∨ ∃ l ∈ ls, x ∈ l.required_properties := by
  induction ls generalizing init with
  | nil => simp
  | cons l ls ih =>
    show x ∈ ls.foldl _ (listUnion init l.required_properties) ↔ _
    rw [ih, mem_listUnion]
    simp [or_assoc]

/-- The node `validate()` returns is the same node except for the cache
slots the cached-property accesses populated. -/
theorem validate_frame (n : ATLASNode) :
    ((n.validate).2).properties = n.properties ∧
    ((n.validate).2).id = n.id ∧
    ((n.validate).2).labels = n.labels ∧
    ((n.validate).2).created_at = n.created_at ∧
    ((n.validate).2).updated_at = n.updated_at ∧
    ((n.validate).2).validation_status = n.validation_status := by
  unfold ATLASNode.validate getMissing getRequired
  cases n.cached_missing <;> cases n.cached_required <;> simp

/-- C2 counterexample: the claim says a node missing required properties
(the section-8 scenario node) can gain them via `update`; on the code,
`update` is wrapped with `requires_validation=True`, whose gate calls
`validate()` first and raises, so the properties are never merged. -/
theorem update_rejects_invalid_node :
    scenarioNode.update fixProps 1 =
      Except.error "Validation failed for update operation" ∧
    (scenarioNode.validate).1 = false :=
  ⟨rfl, rfl⟩

/-- C2 (amended): for a node whose `validate()` currently returns True,
`update(p)` merges `p` into the property map and sets the updated
timestamp, leaving id, labels, created_at and validation status
unchanged; a node missing required properties cannot gain them via
`update`, because the requires_validation gate raises before merging. -/
theorem update_merges_when_valid (n : ATLASNode)
    (props : List (String × PropValue)) (now : Nat)
    (h : (n.validate).1 = true) :
    ∃ n', n.update props now = Except.ok n' ∧
      n'.properties = dictMerge n.properties props ∧
      n'.updated_at = now ∧
      n'.id = n.id ∧ n'.labels = n.labels ∧ n'.created_at = n.created_at ∧
      n'.validation_status = n.validation_status := by
  obtain ⟨hp, hid, hl, hc, _, hs⟩ := validate_frame n
  refine ⟨{ (n.validate).2 with
            properties := dictMerge ((n.validate).2).properties props,
            updated_at := now }, ?_, ?_, rfl, hid, hl, hc, hs⟩
  · simp [ATLASNode.update, h]
  · rw [hp]

/-- C2 witness: the amended theorem applied to the repaired scenario
node. -/
theorem update_merges_when_valid_witness :
    ∃ n', validNode.update extraProps 5 = Except.ok n' ∧
      n'.properties = dictMerge validNode.properties extraProps ∧
      n'.updated_at = 5 ∧
      n'.id = validNode.id ∧ n'.labels = validNode.labels ∧
      n'.created_at = validNode.created_at ∧
      n'.validation_status = validNode.validation_status :=
  update_merges_when_valid validNode extraProps 5 rfl

/-- C3 (amended): the spec-modelled transition operation succeeds
exactly when the target is in `allowed_transitions` of the current
status (given the target's required fields are supplied), and a failed
transition leaves the status unchanged; `client.validate_node`,
however, commits its status change without consulting the table (see
the counterexample). -/
theorem transition_iff_allowed :
    (∀ (n : ATLASNode) (t : ValidationStatusType) (supplied : List String),
      (∀ f ∈ t.required_validation_fields, f ∈ supplied) →
      ((transition n t supplied).1 = true ↔
        t ∈ n.validation_status.allowed_transitions)) ∧
    (∀ (n : ATLASNode) (t : ValidationStatusType) (supplied : List String),
      (transition n t supplied).1 = false →
      (transition n t supplied).2.validation_status = n.validation_status) := by
  constructor
  · intro n t supplied hf
    unfold transition
    have hall : t.required_validation_fields.all (fun f => decide (f ∈ supplied)) = true := by
      rw [List.all_eq_true]
      intro f hmem
      exact decide_eq_true (hf f hmem)
    by_cases ht : t ∈ n.validation_status.allowed_transitions <;>
      simp [ht, hall]
  · intro n t supplied
    unfold transition
    by_cases ht : t ∈ n.validation_status.allowed_transitions <;>
      by_cases hall : t.required_validation_fields.all (fun f => decide (f ∈ supplied)) = true <;>
      simp [ht, hall]

/-- C3 witness: from UNVALIDATED, PENDING is reachable and
EXPERT_VALIDATED is not, and the failed transition left the status
unchanged. -/
theorem transition_iff_allowed_witness :
    ((transition scenarioNode .PENDING pendingFields).1 = true ↔
      ValidationStatusType.PENDING ∈
        scenarioNode.validation_status.allowed_transitions) ∧
    ((transition scenarioNode .EXPERT_VALIDATED expertFields).1 = false →
      (transition scenarioNode .EXPERT_VALIDATED expertFields).2.validation_status =
        scenarioNode.validation_status) :=
  ⟨transition_iff_allowed.1 scenarioNode .PENDING pendingFields (by decide),
   transition_iff_allowed.2 scenarioNode .EXPERT_VALIDATED expertFields⟩

/-- C3 counterexample: `validate_node` commits REJECTED → VALIDATED on a
property-complete rejected node although the transition table does not
allow that transition, refuting the claim that every operation
committing a status change respects the table. -/
theorem validate_node_ignores_transition_table :
    rejNode.validation_status = .REJECTED ∧
    (validate_node rejNode).2.validation_status = .VALIDATED ∧
    ValidationStatusType.VALIDATED ∉
      ValidationStatusType.REJECTED.allowed_transitions :=
  ⟨rfl, rfl, by decide⟩

/-- C7: a node's required properties are the union over its labels of
each label's required set (each per-label set containing the base
`{name, created_at, updated_at}`), the missing properties are the
required ones minus the present keys, and the ENERGY_TERM scenario node
with only the base properties is missing exactly definition and
fuel_group, with `validate()` returning False. -/
theorem required_and_missing_properties_spec :
    (∀ (l : NodeLabelType) (x : String),
      x ∈ ["name", "created_at", "updated_at"] → x ∈ l.required_properties) ∧
    (∀ (labels : List NodeLabelType) (x : String),
      x ∈ computeRequired labels ↔ ∃ l ∈ labels, x ∈ l.required_properties) ∧
    (∀ (n : ATLASNode) (x : String),
      x ∈ computeMissing n ↔
        x ∈ computeRequired n.labels ∧ x ∉ keysOf n.properties) ∧
    computeMissing scenarioNode = ["definition", "fuel_group"] ∧
    (scenarioNode.validate).1 = false := by
  refine ⟨?_, ?_, ?_, rfl, rfl⟩
  · intro l x hx
    fin_cases hx <;> cases l <;> decide
  · intro labels x
    unfold computeRequired
    rw [mem_computeRequired_fold]
    simp
  · intro n x
    unfold computeMissing
    exact mem_listDiff _ _ _

/-- C9: `missing_properties` is cached per instance with no expiration
and nothing invalidates it: the scenario node's first `validate()` is
False, and after the missing required properties are written directly
into its property map the cached set still drives `validate()` to
False, although a fresh computation of the missing set is now empty. -/
theorem missing_properties_cache_is_stale :
    (scenarioNode.validate).1 = false ∧
    (staleNode.validate).1 = false ∧
    computeMissing staleNode = [] :=
  ⟨rfl, rfl, rfl⟩

/-- C1: the claim states `inverse_relationship` returns a result (paired
inverse, self, or None) for every one of the 22 relationship-type
variants, with PART_OF and CONTAINS mutual inverses, SIMILAR_TO
self-inverse and IS_A mapped to None. On the code this fails for every
variant: building the `inverse_map` dict evaluates the attribute
references `self.PRODUCED_BY`, `self.CONSUMED_BY`, ... which are not
members of the enum, so the property raises `AttributeError` (first at
`PRODUCED_BY`, relationship.py line 118) before any inverse can be
returned. -/
theorem inverse_relationship_raises_for_every_variant :
    ∀ t : RelationshipType,
      RelationshipType.inverse_relationship t =
        Except.error "AttributeError: PRODUCED_BY" :=
  fun _ => rfl

/-- C6 counterexample: on a concrete one-node input the analysis dict's
keys include "domain" and name the label distribution
"node_label_distribution", so the key set is not the claimed six-key
set (which has no "domain" and says "label_distribution"). -/
theorem analyze_taxonomy_keys_counterexample :
    (analyze_taxonomy "energy" [mkChainNode "a"] []).map
        (fun r => r.map Prod.fst) =
      Except.ok ["domain", "node_count", "relationship_count",
                 "node_label_distribution", "relationship_type_distribution",
                 "connectivity", "hierarchical_depth"] ∧
    "domain" ∉ ["node_count", "relationship_count", "label_distribution",
                "relationship_type_distribution", "connectivity",
                "hierarchical_depth"] ∧
    "label_distribution" ∉ ["domain", "node_count", "relationship_count",
                            "node_label_distribution",
                            "relationship_type_distribution", "connectivity",
                            "hierarchical_depth"] :=
  ⟨rfl, by decide, by decide⟩

/-- C6 (amended): whenever `analyze_taxonomy` returns a result, its key
list is exactly [domain, node_count, relationship_count,
node_label_distribution, relationship_type_distribution, connectivity,
hierarchical_depth], with node_count the size of the node list and
relationship_count the size of the deduplicated relationship set. -/
theorem analyze_taxonomy_result_shape (domain : String)
    (nodes : List ATLASNode) (store : List ATLASRelationship)
    (res : List (String × AnalysisValue))
    (h : analyze_taxonomy domain nodes store = .ok res) :
    res.map Prod.fst =
      ["domain", "node_count", "relationship_count",
       "node_label_distribution", "relationship_type_distribution",
       "connectivity", "hierarchical_depth"] ∧
    dictGet res "node_count" = some (.num nodes.length) ∧
    dictGet res "relationship_count" =
      some (.num (dedupeById (gatherRelationships nodes store)).length) := by
  simp only [analyze_taxonomy] at h
  rcases hE : calcHierarchicalDepth nodes (dedupeById (gatherRelationships nodes store))
    with e | depth
  · rw [hE] at h
    cases h
  · rw [hE] at h
    injection h with h
    subst h
    exact ⟨rfl, rfl, rfl⟩

/-- C6 witness: the amended theorem applied to the concrete demo input. -/
theorem analyze_taxonomy_result_shape_witness :
    demoRes.map Prod.fst =
      ["domain", "node_count", "relationship_count",
       "node_label_distribution", "relationship_type_distribution",
       "connectivity", "hierarchical_depth"] ∧
    dictGet demoRes "node_count" =
      some (.num ([mkChainNode "a"] : List ATLASNode).length) ∧
    dictGet demoRes "relationship_count" =
      some (.num (dedupeById (gatherRelationships [mkChainNode "a"] [])).length) :=
  analyze_taxonomy_result_shape "energy" [mkChainNode "a"] [] demoRes rfl

/-- Building the hierarchical adjacency succeeds exactly when every
hierarchical relationship's start node id is among the dict's keys. -/
theorem addHierEdges_ok_iff (keys : List String)
    (rs : List ATLASRelationship) :
    ∀ f : String → List String,
      exceptOk (addHierEdges keys f rs) = true ↔
        ∀ r ∈ rs, r.type.is_hierarchical = true → r.start_node_id ∈ keys := by
  induction rs with
  | nil => intro f; simp [addHierEdges, exceptOk]
  | cons r rs ih =>
    intro f
    by_cases hh : r.type.is_hierarchical = true
    · by_cases hs : r.start_node_id ∈ keys
      · rw [show addHierEdges keys f (r :: rs) =
              addHierEdges keys
                (fun x => if x = r.start_node_id then f x ++ [r.end_node_id] else f x)
                rs by simp [addHierEdges, hh, hs]]
        rw [ih]
        constructor
        · intro h r' hr' hh'
          rcases List.mem_cons.mp hr' with rfl | hmem
          · exact hs
          · exact h r' hmem hh'
        · intro h r' hr' hh'
          exact h r' (List.mem_cons_of_mem _ hr') hh'
      · rw [show addHierEdges keys f (r :: rs) = .error () by
              simp [addHierEdges, hh, hs]]
        simp only [exceptOk]
        constructor
        · intro h; cases h
        · intro h
          exact absurd (h r (List.mem_cons_self r rs) hh) hs
    · rw [show addHierEdges keys f (r :: rs) = addHierEdges keys f rs by
            simp [addHierEdges, hh]]
      rw [ih]
      constructor
      · intro h r' hr' hh'
        rcases List.mem_cons.mp hr' with rfl | hmem
        · exact absurd hh' hh
        · exact h r' hmem hh'
      · intro h r' hr' hh'
        exact h r' (List.mem_cons_of_mem _ hr') hh'

/-- C10: `_calculate_hierarchical_depth` returns a depth exactly when
every hierarchical relationship's start node id appears among the given
nodes; any input with a hierarchical relationship starting outside the
node set makes the adjacency build raise a key-lookup error. -/
theorem hierarchical_depth_total_iff_starts_present
    (nodes : List ATLASNode) (rels : List ATLASRelationship) :
    exceptOk (calcHierarchicalDepth nodes rels) = true ↔
      ∀ r ∈ rels, r.type.is_hierarchical = true →
        r.start_node_id ∈ nodes.map (fun nd => nd.id) := by
  rw [← addHierEdges_ok_iff (nodes.map (fun nd => nd.id)) rels (fun _ => [])]
  unfold calcHierarchicalDepth
  cases addHierEdges (nodes.map (fun nd => nd.id)) (fun _ => []) rels with
  | error e => simp [exceptOk]
  | ok adj => simp [exceptOk]

/-- C10 witness: the characterization applied to a node set receiving a
hierarchical edge from an outside node, where the computation fails. -/
theorem hierarchical_depth_total_iff_witness :
    (exceptOk (calcHierarchicalDepth [mkChainNode "a"] [outsideEdgeRel]) = true ↔
      ∀ r ∈ [outsideEdgeRel], r.type.is_hierarchical = true →
        r.start_node_id ∈ ([mkChainNode "a"] : List ATLASNode).map (fun nd => nd.id)) :=
  hierarchical_depth_total_iff_starts_present [mkChainNode "a"] [outsideEdgeRel]

/-- Unfolding: a successful invocation ends the retry loop. -/
theorem retryFrom_eq_ok {E V : Type} (body : Nat → Except E V)
    (r j : Nat) (v : V) (h : body j = .ok v) :
    retryFrom body r j = (.ok v, j + 1) := by
  cases r <;> simp [retryFrom, h]

/-- Unfolding: an exception with no retries left is re-raised. -/
theorem retryFrom_eq_err_zero {E V : Type} (body : Nat → Except E V)
    (j : Nat) (e : E) (h : body j = .error e) :
    retryFrom body 0 j = (.error e, j + 1) := by
  simp [retryFrom, h]

/-- Unfolding: an exception with retries left moves to the next attempt. -/
theorem retryFrom_eq_err_succ {E V : Type} (body : Nat → Except E V)
    (r j : Nat) (e : E) (h : body j = .error e) :
    retryFrom body (r + 1) j = retryFrom body r (j + 1) := by
  simp [retryFrom, h]

/-- The retry loop reaches the first successful attempt: if the first
`d` invocations raise and attempt `d` succeeds within the allowed
attempts, the loop returns that value after `d + 1` invocations. -/
theorem retryFrom_reaches_ok {E V : Type} (body : Nat → Except E V)
    (es : Nat → E) (v : V) :
    ∀ (d r j : Nat), d ≤ r →
      (∀ i, j ≤ i → i < j + d → body i = .error (es i)) →
      body (j + d) = .ok v →
      retryFrom body r j = (.ok v, j + d + 1) := by
  intro d
  induction d with
  | zero =>
    intro r j _ _ hsucc
    rw [Nat.add_zero] at hsucc
    rw [retryFrom_eq_ok body r j v hsucc, Nat.add_zero]
  | succ d ih =>
    intro r j hdr hfail hsucc
    have hj : body j = .error (es j) := hfail j le_rfl (by omega)
    obtain ⟨r', rfl⟩ : ∃ r', r = r' + 1 := ⟨r - 1, by omega⟩
    rw [retryFrom_eq_err_succ body r' j (es j) hj]
    have := ih r' (j + 1) (by omega)
      (fun i hi hi2 => hfail i (by omega) (by omega))
      (by rw [show j + 1 + d = j + (d + 1) by omega]; exact hsucc)
    rw [this]
    congr 2
    omega

/-- The retry loop exhausts all attempts when every invocation raises,
re-raising the last exception after `retries + 1` invocations. -/
theorem retryFrom_all_fail {E V : Type} (body : Nat → Except E V)
    (es : Nat → E) :
    ∀ (r j : Nat),
      (∀ i, j ≤ i → i ≤ j + r → body i = .error (es i)) →
      retryFrom body r j = (.error (es (j + r)), j + r + 1) := by
  intro r
  induction r with
  | zero =>
    intro j hfail
    have hj : body j = .error (es j) := hfail j le_rfl (by omega)
    rw [Nat.add_zero, retryFrom_eq_err_zero body j (es j) hj]
  | succ r ih =>
    intro j hfail
    have hj : body j = .error (es j) := hfail j le_rfl (by omega)
    rw [retryFrom_eq_err_succ body r j (es j) hj]
    have := ih (j + 1) (fun i hi hi2 => hfail i (by omega) (by omega))
    rw [this]
    rw [show j + 1 + r = j + (r + 1) by omega]

/-- C4: a wrapped operation configured with `retry_attempts = n` (no
gate, no cache) returns the body's value after failures + 1 invocations
when some attempt k ≤ n succeeds, and re-raises the last exception
after exactly n + 1 invocations when every attempt raises. -/
theorem atlas_operation_retry (E V : Type) (body : Nat → Except E V)
    (es : Nat → E) (n : Nat) :
    (∀ (k : Nat) (v : V), k ≤ n →
      (∀ i, i < k → body i = .error (es i)) → body k = .ok v →
      atlasOperation false n false true body () none =
        (.ok v, none, k + 1)) ∧
    ((∀ i, i ≤ n → body i = .error (es i)) →
      atlasOperation false n false true body () none =
        (.error (.opError (es n)), none, n + 1)) := by
  constructor
  · intro k v hk hfail hsucc
    have hR := retryFrom_reaches_ok body es v k n 0 hk
      (fun i _ hi => hfail i (by omega))
      (by rw [Nat.zero_add]; exact hsucc)
    simp [atlasOperation, hR]
  · intro hfail
    have hR := retryFrom_all_fail body es n 0
      (fun i _ hi => hfail i (by omega))
    rw [Nat.zero_add] at hR
    simp [atlasOperation, hR]

/-- C4 witness: a body raising twice then returning "ok" yields "ok"
after 3 invocations with retry_attempts = 2, and re-raises after 2
invocations with retry_attempts = 1. -/
theorem atlas_operation_retry_witness :
    atlasOperation false 2 false true bodyTwiceFail () none =
      (.ok "ok", none, 3) ∧
    atlasOperation false 1 false true bodyTwiceFail () none =
      (.error (.opError "boom"), none, 2) :=
  ⟨(atlas_operation_retry String String bodyTwiceFail esBoom 2).1 2 "ok"
      (by omega)
      (fun i hi => by simp [bodyTwiceFail, esBoom, if_pos hi])
      (by simp [bodyTwiceFail]),
   (atlas_operation_retry String String bodyTwiceFail esBoom 1).2
      (fun i hi => by
        simp [bodyTwiceFail, esBoom, if_pos (show i < 2 by omega)])⟩

/-- C5: with caching enabled, the first call invokes the wrapped
function once and stores the result keyed by its arguments; a second
call with identical arguments returns the cached result with zero
invocations, skipping even the validation gate (here shown with the
gate armed and a failing validate); a call with different arguments
invokes the function again; nothing ever removes a cache entry. -/
theorem atlas_operation_cache (E V A : Type) [DecidableEq A] (n : Nat)
    (body body2 body3 : Nat → Except E V) (a b : A) (v w : V)
    (validate2 : Bool)
    (h1 : body 0 = .ok v) (hab : b ≠ a) (h3 : body3 0 = .ok w) :
    atlasOperation true n true true body a none = (.ok v, some [(a, v)], 1) ∧
    atlasOperation true n true validate2 body2 a (some [(a, v)]) =
      (.ok v, some [(a, v)], 0) ∧
    atlasOperation true n true true body3 b (some [(a, v)]) =
      (.ok w, some [(a, v), (b, w)], 1) := by
  refine ⟨?_, ?_, ?_⟩
  · have hR : retryFrom body n 0 = (.ok v, 1) := retryFrom_eq_ok body n 0 v h1
    simp [atlasOperation, hR, dictSet]
  · simp [atlasOperation, dictGet]
  · have hR : retryFrom body3 n 0 = (.ok w, 1) := retryFrom_eq_ok body3 n 0 w h3
    have hget : dictGet [(a, v)] b = none := by
      simp [dictGet, Ne.symm hab]
    simp [atlasOperation, hR, hget, dictSet, Ne.symm hab]

/-- C5 witness: the cache behavior at concrete string arguments. -/
theorem atlas_operation_cache_witness :
    atlasOperation true 0 true true bodyOkV1 ("args1" : String)
        (none : Option (List (String × String))) =
      (.ok "v1", some [("args1", "v1")], 1) ∧
    atlasOperation true 0 true false bodyErrU ("args1" : String)
        (some [("args1", "v1")]) =
      (.ok "v1", some [("args1", "v1")], 0) ∧
    atlasOperation true 0 true true bodyOkV2 ("args2" : String)
        (some [("args1", "v1")]) =
      (.ok "v2", some [("args1", "v1"), ("args2", "v2")], 1) :=
  atlas_operation_cache String String String 0
    bodyOkV1 bodyErrU bodyOkV2 "args1" "args2" "v1" "v2" false
    rfl (by decide) rfl

/-- On a chain's node ids, the adjacency build succeeds and produces the
chain adjacency, leaving ids outside the chain untouched. -/
theorem chain_addHierEdges :
    ∀ (ids keys : List String) (f : String → List String),
      ids.Nodup → (∀ x ∈ ids, x ∈ keys) → (∀ x ∈ ids, f x = []) →
      ∃ g, addHierEdges keys f (chainRels ids) = .ok g ∧
        adjIsChain g ids ∧ ∀ x, x ∉ ids → g x = f x := by
  intro ids
  induction ids with
  | nil =>
    intro keys f _ _ _
    exact ⟨f, rfl, trivial, fun _ _ => rfl⟩
  | cons a tail ih =>
    intro keys f hnd hkeys hf
    cases tail with
    | nil =>
      refine ⟨f, rfl, ?_, fun _ _ => rfl⟩
      show f a = []
      exact hf a (List.mem_singleton_self a)
    | cons b rest =>
      have hmemA : a ∈ keys := hkeys a (List.mem_cons_self a _)
      have hndTail : (b :: rest).Nodup := (List.nodup_cons.mp hnd).2
      have hnotA : a ∉ b :: rest := (List.nodup_cons.mp hnd).1
      have hstep : addHierEdges keys f (chainRels (a :: b :: rest)) =
          addHierEdges keys
            (fun x => if x = a then f x ++ [b] else f x)
            (chainRels (b :: rest)) := by
        simp [chainRels, addHierEdges, RelationshipType.is_hierarchical, hmemA]
      obtain ⟨g, hg, hchain, hframe⟩ :=
        ih keys (fun x => if x = a then f x ++ [b] else f x) hndTail
          (fun x hx => hkeys x (List.mem_cons_of_mem a hx))
          (fun x hx => by
            have hxa : x ≠ a := fun hcontra => hnotA (hcontra ▸ hx)
            simp [hxa]
            exact hf x (List.mem_cons_of_mem a hx))
      refine ⟨g, hstep.trans hg, ?_, ?_⟩
      · refine ⟨?_, hchain⟩
        have hga : g a = if a = a then f a ++ [b] else f a := hframe a hnotA
        rw [hga]
        simp [hf a (List.mem_cons_self a _)]
      · intro x hx
        have hx1 : x ∉ b :: rest := fun hmem => hx (List.mem_cons_of_mem a hmem)
        have hx2 : x ≠ a := fun hcontra => hx (hcontra ▸ List.mem_cons_self a _)
        rw [hframe x hx1]
        simp [hx2]

/-- The DFS started at the head of a chain of unvisited ids walks the
whole chain: it visits every chain id and raises the maximum depth to
the start depth plus the chain's edge count. -/
theorem dfs_chain :
    ∀ (tail : List String) (a : String) (adj : String → List String)
      (fuel d : Nat) (s : DfsState),
      adjIsChain adj (a :: tail) → (a :: tail).Nodup →
      (∀ x ∈ a :: tail, x ∉ s.visited) → tail.length + 1 ≤ fuel →
      dfsVisit adj fuel a d s =
        ⟨(a :: tail).reverse ++ s.visited, max s.maxDepth (d + tail.length)⟩ := by
  intro tail
  induction tail with
  | nil =>
    intro a adj fuel d s hchain _ hvis hfuel
    have hadj : adj a = [] := hchain
    have hva : a ∉ s.visited := hvis a (List.mem_singleton_self a)
    obtain ⟨fu, rfl⟩ : ∃ fu, fuel = fu + 1 := ⟨fuel - 1, by omega⟩
    simp [dfsVisit, hadj, hva]
  | cons b rest ih =>
    intro a adj fuel d s hchain hnd hvis hfuel
    obtain ⟨hadjA, hchainT⟩ : adj a = [b] ∧ adjIsChain adj (b :: rest) := hchain
    have hva : a ∉ s.visited := hvis a (List.mem_cons_self a _)
    have hnotA : a ∉ b :: rest := (List.nodup_cons.mp hnd).1
    have hndT : (b :: rest).Nodup := (List.nodup_cons.mp hnd).2
    have hba : b ≠ a := fun hcontra => hnotA (hcontra ▸ List.mem_cons_self b rest)
    have hvb : b ∉ s.visited := hvis b (List.mem_cons_of_mem a (List.mem_cons_self b rest))
    obtain ⟨fu, rfl⟩ : ∃ fu, fuel = fu + 1 := ⟨fuel - 1, by omega⟩
    have hrec := ih b adj fu (d + 1) ⟨a :: s.visited, max s.maxDepth d⟩
      hchainT hndT
      (fun x hx => by
        have hxa : x ≠ a := fun hcontra => hnotA (hcontra ▸ hx)
        have hxs : x ∉ s.visited := hvis x (List.mem_cons_of_mem a hx)
        simp [hxa, hxs])
      (by simp at hfuel ⊢; omega)
    have hstep : dfsVisit adj (fu + 1) a d s =
        dfsVisit adj fu b (d + 1) ⟨a :: s.visited, max s.maxDepth d⟩ := by
      simp [dfsVisit, hadjA, hva, hba, hvb]
    rw [hstep, hrec]
    refine congrArg₂ DfsState.mk ?_ ?_
    · simp
    · simp
      omega

/-- The top-level DFS loop does nothing when every node is already
visited. -/
theorem foldl_dfs_skip (adj : String → List String) (fuel : Nat) :
    ∀ (nodes : List ATLASNode) (st : DfsState),
      (∀ nd ∈ nodes, nd.id ∈ st.visited) →
      nodes.foldl
        (fun st nd =>
          if nd.id ∈ st.visited then st else dfsVisit adj fuel nd.id 0 st)
        st = st := by
  intro nodes
  induction nodes with
  | nil => intro st _; rfl
  | cons nd rest ih =>
    intro st h
    rw [List.foldl_cons, if_pos (h nd (List.mem_cons_self nd rest))]
    exact ih st (fun x hx => h x (List.mem_cons_of_mem nd hx))

/-- The ids of a chain's node list are the chain's ids. -/
theorem chainNodes_map_id (ids : List String) :
    (chainNodes ids).map (fun nd => nd.id) = ids := by
  induction ids with
  | nil => rfl
  | cons a tail ih => simp [chainNodes, mkChainNode] at ih ⊢; exact ih

/-- Unfolding of the depth computation once the adjacency build has
succeeded. -/
theorem calcHierarchicalDepth_eq_of_adj (nodes : List ATLASNode)
    (rels : List ATLASRelationship) (keys : List String)
    (g : String → List String)
    (hk : nodes.map (fun nd => nd.id) = keys)
    (h : addHierEdges keys (fun _ => []) rels = .ok g) :
    calcHierarchicalDepth nodes rels =
      .ok ((nodes.foldl
        (fun st nd =>
          if nd.id ∈ st.visited then st
          else dfsVisit g (nodes.length + rels.length + 1) nd.id 0 st)
        ⟨[], 0⟩).maxDepth) := by
  unfold calcHierarchicalDepth
  rw [hk, h]

/-- C8: for a node set forming one linear chain of hierarchical edges on
distinct ids, with the chain's root first (so the traversal starts
there), `_calculate_hierarchical_depth` returns the number of edges,
i.e. the number of nodes minus one. -/
theorem hierarchical_depth_of_chain (ids : List String)
    (hne : ids ≠ []) (hnd : ids.Nodup) :
    calcHierarchicalDepth (chainNodes ids) (chainRels ids) =
      .ok (ids.length - 1) := by
  obtain ⟨a, tail, rfl⟩ : ∃ a tail, ids = a :: tail := by
    cases ids with
    | nil => exact absurd rfl hne
    | cons a tail => exact ⟨a, tail, rfl⟩
  obtain ⟨g, hg, hchain, -⟩ :=
    chain_addHierEdges (a :: tail) (a :: tail) (fun _ => []) hnd
      (fun x hx => hx) (fun _ _ => rfl)
  have hlen : (chainNodes (a :: tail)).length = tail.length + 1 := by
    simp [chainNodes]
  have hfuel : tail.length + 1 ≤
      (chainNodes (a :: tail)).length + (chainRels (a :: tail)).length + 1 := by
    omega
  rw [calcHierarchicalDepth_eq_of_adj (chainNodes (a :: tail))
        (chainRels (a :: tail)) (a :: tail) g (chainNodes_map_id (a :: tail)) hg]
  generalize hF : (chainNodes (a :: tail)).length + (chainRels (a :: tail)).length + 1 = F
  have hfuelF : tail.length + 1 ≤ F := hF ▸ hfuel
  have hdfs := dfs_chain tail a g F 0 ⟨[], 0⟩ hchain hnd
    (fun x _ => List.not_mem_nil x) hfuelF
  have hfold : (chainNodes (a :: tail)).foldl
      (fun st nd =>
        if nd.id ∈ st.visited then st
        else dfsVisit g F nd.id 0 st)
      ⟨[], 0⟩ =
      ⟨(a :: tail).reverse ++ [], max 0 (0 + tail.length)⟩ := by
    rw [show chainNodes (a :: tail) = mkChainNode a :: chainNodes tail from rfl,
        List.foldl_cons]
    simp only [show (mkChainNode a).id = a from rfl]
    rw [if_neg (show a ∉ (DfsState.mk [] 0).visited from List.not_mem_nil a)]
    rw [hdfs]
    refine foldl_dfs_skip g F (chainNodes tail) _ ?_
    intro nd hnd2
    obtain ⟨x, hx, rfl⟩ := List.mem_map.mp hnd2
    show (mkChainNode x).id ∈ _
    simp [mkChainNode, List.mem_reverse, hx]
  rw [hfold]
  simp

/-- C8 witness: a chain of two hierarchical edges on three distinct
nodes has depth 2. -/
theorem hierarchical_depth_of_chain_witness :
    (["a", "b", "c"] : List String) ≠ [] ∧
    (["a", "b", "c"] : List String).Nodup ∧
    calcHierarchicalDepth (chainNodes ["a", "b", "c"])
        (chainRels ["a", "b", "c"]) = .ok 2 :=
  ⟨by decide, by decide,
   hierarchical_depth_of_chain ["a", "b", "c"] (by decide) (by decide)⟩
